import Mathlib

/-!
Verification development for the GeoClue2 position-info source
(`qgeopositioninfosource_geoclue2.cpp`).

The plugin is a single-threaded, event-loop driven client of the GeoClue2
D-Bus service.  We embed it as a labelled transition system: a `State`
record mirrors the member fields of `QGeoPositionInfoSourceGeoclue2`
(`m_running`, the single-shot request timer, the optional client handle
`m_client`, `m_error`, `m_lastPosition`), plus a FIFO list of in-flight
asynchronous D-Bus calls.  External events (the public API, the timer
firing, `LocationUpdated` signals) and completions of in-flight calls
(each carrying the environment outcome of the call) drive the machine
through `step`.  Every transition function is translated directly from
the corresponding C++ function.

Double-valued D-Bus location properties are modelled by the type `D`
(a rational together with the non-finite IEEE values), with the two
order tests the code performs (`>` against `std::numeric_limits<double>::lowest()`
and `>= 0.0`) given IEEE semantics.  `QDateTime` is modelled as
milliseconds since the epoch (an unbounded `Int`); the explicit
`qint64(...)` narrowing performed by the source is kept as `toInt64`.
-/

namespace Geoclue2

/-- Model of an IEEE-754 double as delivered by the D-Bus properties:
a finite value (an exact rational), the two infinities, or NaN. -/
inductive D where
  | finite (q : ℚ)
  | ninf
  | pinf
  | nan
deriving DecidableEq

/-- IEEE strict less-than on doubles: any comparison with NaN is false. -/
def dlt : D → D → Bool
  | D.nan, _ => false
  | _, D.nan => false
  | D.ninf, D.ninf => false
  | D.ninf, _ => true
  | _, D.ninf => false
  | D.pinf, D.pinf => false
  | _, D.pinf => true
  | D.pinf, _ => false
  | D.finite a, D.finite b => decide (a < b)

/-- IEEE less-or-equal on doubles: any comparison with NaN is false. -/
def dle : D → D → Bool
  | D.nan, _ => false
  | _, D.nan => false
  | D.ninf, _ => true
  | _, D.ninf => false
  | _, D.pinf => true
  | D.pinf, _ => false
  | D.finite a, D.finite b => decide (a ≤ b)

/-- IEEE strict greater-than. -/
def dgt (a b : D) : Bool := dlt b a

/-- IEEE greater-or-equal. -/
def dge (a b : D) : Bool := dle b a

/-- The exact value of `std::numeric_limits<double>::lowest()`,
namely `-((2 - 2^-52) * 2^1023) = -(2^1024 - 2^971)`. -/
def lowestQ : ℚ := -(2 ^ 1024 - 2 ^ 971)

/-- `std::numeric_limits<double>::lowest()` as a `D` value; the sentinel
against which the reported altitude is compared (line 391 of the source). -/
def dblLowest : D := D.finite lowestQ

/-- The double literal `0.0`, used in the speed and heading tests. -/
def dzero : D := D.finite 0

/-- Model of `QGeoCoordinate`: latitude, longitude and an optional
altitude (a default-constructed coordinate has NaN latitude/longitude
and no altitude). -/
structure Coordinate where
  latitude : D
  longitude : D
  altitude : Option D := none
deriving DecidableEq

/-- Model of `QGeoPositionInfo`: a coordinate, an optional timestamp
(`none` models a null `QDateTime`, as in a default-constructed info),
and the three optional attributes the plugin sets. -/
structure Fix where
  coordinate : Coordinate
  timestamp : Option Int := none
  horizontalAccuracy : Option D := none
  groundSpeed : Option D := none
  direction : Option D := none
deriving DecidableEq

/-- A default-constructed `QGeoPositionInfo` (invalid coordinate, null
timestamp, no attributes): the initial value of `m_lastPosition`. -/
def defaultFix : Fix :=
  { coordinate := { latitude := D.nan, longitude := D.nan } }

/-- Modelled from the spec: `QGeoCoordinate::isValid()` of the Qt
positioning library (not part of this repository): the latitude must lie
in [-90, 90] and the longitude in [-180, 180]; NaN fails both tests. -/
def coordIsValid (c : Coordinate) : Bool :=
  dge c.latitude (D.finite (-90)) && dle c.latitude (D.finite 90) &&
  dge c.longitude (D.finite (-180)) && dle c.longitude (D.finite 180)

/-- Modelled from the spec: `QGeoPositionInfo::isValid()` of the Qt
positioning library (not part of this repository): valid coordinate and
a non-null timestamp. -/
def fixIsValid (f : Fix) : Bool :=
  coordIsValid f.coordinate && f.timestamp.isSome

/-- The property values readable from one GeoClue2 `Location` D-Bus
object (source lines 388-412): latitude, longitude, altitude, accuracy,
speed and heading are doubles; the timestamp is a pair of unsigned
64-bit integers (seconds, microseconds), here carried as `Nat` values
that the D-Bus wire keeps below `2^64`. -/
structure LocationData where
  latitude : D
  longitude : D
  altitude : D
  accuracy : D
  speed : D
  heading : D
  tsSeconds : Nat
  tsMicroseconds : Nat
deriving DecidableEq

/-- A default location-data record (unset doubles are NaN). -/
def defaultLoc : LocationData :=
  { latitude := D.nan, longitude := D.nan, altitude := D.nan,
    accuracy := D.nan, speed := D.nan, heading := D.nan,
    tsSeconds := 0, tsMicroseconds := 0 }

/-- The C++ conversion `qint64(x)` applied to an unsigned 64-bit value:
reduce modulo `2^64` and reinterpret the top range as negative. -/
def toInt64 (n : Nat) : Int :=
  if n % 2 ^ 64 < 2 ^ 63 then ((n % 2 ^ 64 : Nat) : Int)
  else ((n % 2 ^ 64 : Nat) : Int) - 2 ^ 64

/-- Translation of the location-resolution part of
`QGeoPositionInfoSourceGeoclue2::handleNewLocation` (source lines
388-412): build the coordinate (altitude only when strictly above
`std::numeric_limits<double>::lowest()`), pick the timestamp (current
time when the reported pair is (0,0), otherwise
`QDateTime::fromSecsSinceEpoch(qint64(seconds)).addMSecs(microseconds / 1000)`),
then set the horizontal accuracy unconditionally and speed/heading only
when non-negative. -/
def resolveLocation (loc : LocationData) (now : Int) : Fix :=
  let coordinate : Coordinate :=
    { latitude := loc.latitude, longitude := loc.longitude,
      altitude := if dgt loc.altitude dblLowest then some loc.altitude else none }
  let ts : Int :=
    if loc.tsSeconds = 0 ∧ loc.tsMicroseconds = 0 then now
    else toInt64 loc.tsSeconds * 1000 + (loc.tsMicroseconds / 1000 : Nat)
  { coordinate := coordinate
    timestamp := some ts
    horizontalAccuracy := some loc.accuracy
    groundSpeed := if dge loc.speed dzero then some loc.speed else none
    direction := if dge loc.heading dzero then some loc.heading else none }

/-- The two error kinds the plugin ever stores (`AccessError`,
`UnknownSourceError`); `none` in `State.error` models `NoError`. -/
inductive Err where
  | accessError
  | unknownSourceError
deriving DecidableEq

/-- Pending-call kinds: the three asynchronous D-Bus calls the plugin
issues (`GetClient`, `Client.Start`, `Client.Stop`). -/
inductive Pend where
  | create
  | start
  | stop
deriving DecidableEq

/-- The client handle `m_client` together with the remote session state
it stands for.  `started` records whether the remote client has been
started (set when a `Start` call completes successfully); the remaining
fields record the property values pushed by `configureClient`. -/
structure Client where
  started : Bool := false
  desktopIdSet : Bool := false
  timeThresholdSent : Option Nat := none
  requestedAccuracy : Option Nat := none
deriving DecidableEq

/-- `QGeoPositionInfoSource::NoPositioningMethods`. -/
def noPositioningMethods : Nat := 0x00000000

/-- `QGeoPositionInfoSource::SatellitePositioningMethods`. -/
def satellitePositioningMethods : Nat := 0x000000ff

/-- `QGeoPositionInfoSource::NonSatellitePositioningMethods`. -/
def nonSatellitePositioningMethods : Nat := 0xffffff00

/-- `QGeoPositionInfoSource::AllPositioningMethods`. -/
def allPositioningMethods : Nat := 0xffffffff

/-- `GCLUE_ACCURACY_LEVEL_NONE` (source line 27). -/
def GCLUE_ACCURACY_LEVEL_NONE : Nat := 0

/-- `GCLUE_ACCURACY_LEVEL_COUNTRY` (source line 28). -/
def GCLUE_ACCURACY_LEVEL_COUNTRY : Nat := 1

/-- `GCLUE_ACCURACY_LEVEL_CITY` (source line 29). -/
def GCLUE_ACCURACY_LEVEL_CITY : Nat := 4

/-- `GCLUE_ACCURACY_LEVEL_NEIGHBORHOOD` (source line 30). -/
def GCLUE_ACCURACY_LEVEL_NEIGHBORHOOD : Nat := 5

/-- `GCLUE_ACCURACY_LEVEL_STREET` (source line 31). -/
def GCLUE_ACCURACY_LEVEL_STREET : Nat := 6

/-- `GCLUE_ACCURACY_LEVEL_EXACT` (source line 32). -/
def GCLUE_ACCURACY_LEVEL_EXACT : Nat := 8

/-- `MINIMUM_UPDATE_INTERVAL` (source line 36), also the value returned
by `minimumUpdateInterval()`. -/
def minimumUpdateInterval : Int := 1000

/-- `UPDATE_TIMEOUT_COLD_START` (source line 37). -/
def UPDATE_TIMEOUT_COLD_START : Int := 120000

/-- The machine state: the member fields of
`QGeoPositionInfoSourceGeoclue2` plus the FIFO queue of in-flight
asynchronous D-Bus calls.  `requestTimer = some msec` models
`m_requestTimer` active with the given interval; `crashed` records that
a completion handler dereferenced a null `m_client`
(`m_client->location()` in the `Start` success handler). -/
structure State where
  running : Bool := false
  requestTimer : Option Int := none
  client : Option Client := none
  error : Option Err := none
  lastPosition : Fix := defaultFix
  updateInterval : Int := 0
  preferredMethods : Nat := allPositioningMethods
  pending : List Pend := []
  crashed : Bool := false
deriving DecidableEq

/-- Translation of `setError` (source lines 177-182); the signal
emission is not modelled, only the stored error kind. -/
def setError (e : Err) (s : State) : State :=
  { s with error := some e }

/-- Translation of the time-threshold computation of `configureClient`
(source line 336): `qMax(uint(msecs), 0u) / 1000u`, where `uint(msecs)`
is the C++ int-to-uint conversion, i.e. reduction modulo `2^32`. -/
def timeThreshold (msecs : Int) : Nat :=
  (max (msecs % 2 ^ 32).toNat 0) / 1000

/-- Translation of the accuracy-level switch of `configureClient`
(source lines 339-353). -/
def requestedAccuracyFor (methods : Nat) : Nat :=
  if methods = satellitePositioningMethods then GCLUE_ACCURACY_LEVEL_EXACT
  else if methods = nonSatellitePositioningMethods then GCLUE_ACCURACY_LEVEL_STREET
  else if methods = allPositioningMethods then GCLUE_ACCURACY_LEVEL_EXACT
  else GCLUE_ACCURACY_LEVEL_NONE

/-- Translation of `configureClient` (source lines 315-356).  The
desktop-id lookup (environment variable falling back to the application
name, an external collaborator) is abstracted to the boolean
`desktopIdOk`: `true` when at least one of the two is non-empty.
Returns the C++ boolean result together with the updated state. -/
def configureClient (desktopIdOk : Bool) (s : State) : Bool × State :=
  match s.client with
  | none => (false, s)
  | some c =>
      if desktopIdOk then
        let c2 : Client :=
          { c with desktopIdSet := true,
                   timeThresholdSent := some (timeThreshold s.updateInterval),
                   requestedAccuracy := some (requestedAccuracyFor s.preferredMethods) }
        (true, { s with client := some c2 })
      else (false, setError Err.accessError s)

/-- Translation of `createClient` (source lines 213-251): issue the
asynchronous `GetClient` manager call; the body of the completion
handler is `onCreateFinished`. -/
def createClient (s : State) : State :=
  { s with pending := s.pending ++ [Pend.create] }

/-- Translation of `startClient` (source lines 253-289): return unless
someone asked for updates; create the client if absent; otherwise issue
the asynchronous `Start` call, whose completion handler is
`onStartFinished`. -/
def startClient (s : State) : State :=
  if !s.running && s.requestTimer.isNone then s
  else
    match s.client with
    | none => createClient s
    | some _ => { s with pending := s.pending ++ [Pend.start] }

/-- Translation of `stopClient` (source lines 291-313): return if
updates are still wanted or there is no client; otherwise issue the
asynchronous `Stop` call, whose completion handler is
`onStopFinished`. -/
def stopClient (s : State) : State :=
  if s.requestTimer.isSome || s.running || s.client.isNone then s
  else { s with pending := s.pending ++ [Pend.stop] }

/-- Translation of `startUpdates` (source lines 125-144).  The queued
re-delivery of a valid `m_lastPosition` is a signal emission and is not
modelled. -/
def startUpdates (s : State) : State :=
  if s.running then s
  else startClient { s with error := none, running := true }

/-- Translation of `stopUpdates` (source lines 146-157). -/
def stopUpdates (s : State) : State :=
  if !s.running then s
  else stopClient { s with running := false }

/-- Translation of `requestUpdate` (source lines 159-175): ignored while
the request timer is active; a nonzero timeout below the minimum update
interval only raises `UnknownSourceError`; otherwise the single-shot
timer is started with the given timeout (or the cold-start default for
timeout 0) and `startClient` is driven. -/
def requestUpdate (timeout : Int) (s : State) : State :=
  if s.requestTimer.isSome then s
  else
    let s2 := { s with error := none }
    if timeout < minimumUpdateInterval ∧ timeout ≠ 0 then
      setError Err.unknownSourceError s2
    else
      let iv : Int := if timeout = 0 then UPDATE_TIMEOUT_COLD_START else timeout
      startClient { s2 with requestTimer := some iv }

/-- Translation of `handleNewLocation` (source lines 367-419): stop the
request timer if active; when the new location object resolves
(`location.isValid()`, abstracted to the boolean `valid`), replace
`m_lastPosition` by the resolved fix; in every case finish with
`stopClient`.  `now` is the wall-clock time read by
`QDateTime::currentDateTime()`. -/
def handleNewLocation (valid : Bool) (loc : LocationData) (now : Int) (s : State) : State :=
  let s2 := { s with requestTimer := none }
  let s3 := if valid then { s2 with lastPosition := resolveLocation loc now } else s2
  stopClient s3

/-- Translation of `requestUpdateTimeout` (source lines 358-365). -/
def requestUpdateTimeout (s : State) : State :=
  stopClient (setError Err.unknownSourceError s)

/-- The single-shot request timer firing: the timer becomes inactive and
the connected slot `requestUpdateTimeout` runs (source lines 63-65). -/
def timerFire (s : State) : State :=
  match s.requestTimer with
  | none => s
  | some _ => requestUpdateTimeout { s with requestTimer := none }

/-- Environment outcome of one asynchronous completion: whether the
D-Bus reply is an error, whether the fresh client object `isValid()`,
whether the desktop id resolves, whether the started client already
reports a location object (path neither empty nor "/"), and the data of
that location object. -/
structure CompInfo where
  ok : Bool := true
  clientValid : Bool := true
  desktopIdOk : Bool := true
  hasLocation : Bool := false
  locValid : Bool := true
  loc : LocationData := defaultLoc
  now : Int := 0
deriving DecidableEq

/-- Translation of the `GetClient` completion lambda inside
`createClient` (source lines 218-250): on a D-Bus error only set
`AccessError`; otherwise replace `m_client` by a fresh client object;
if that object is invalid delete it and set `AccessError`; otherwise
configure it and, when configuration succeeds, run `startClient`. -/
def onCreateFinished (i : CompInfo) (s : State) : State :=
  if !i.ok then setError Err.accessError s
  else
    let s2 := { s with client := some {} }
    if !i.clientValid then setError Err.accessError { s2 with client := none }
    else
      match configureClient i.desktopIdOk s2 with
      | (true, s3) => startClient s3
      | (false, s3) => s3

/-- Translation of the `Start` completion lambda inside `startClient`
(source lines 267-288): on a D-Bus error delete `m_client` and set
`AccessError`; on success the remote client is started, and the handler
reads `m_client->location()` — a null dereference if `m_client` has
meanwhile been deleted (modelled by `crashed`); when the location path
is neither empty nor "/", `handleNewLocation` runs on it. -/
def onStartFinished (i : CompInfo) (s : State) : State :=
  if !i.ok then setError Err.accessError { s with client := none }
  else
    match s.client with
    | none => { s with crashed := true }
    | some c =>
        let s2 := { s with client := some { c with started := true } }
        if !i.hasLocation then s2
        else handleNewLocation i.locValid i.loc i.now s2

/-- Translation of the `Stop` completion lambda inside `stopClient`
(source lines 300-312): on a D-Bus error set `AccessError`; in every
case delete `m_client`. -/
def onStopFinished (i : CompInfo) (s : State) : State :=
  let s2 := if !i.ok then setError Err.accessError s else s
  { s2 with client := none }

/-- The events driving the machine: the three public API calls, the
request timer firing, a `LocationUpdated` D-Bus signal, and the
completion of the oldest in-flight asynchronous call. -/
inductive Ev where
  | startUpdates
  | stopUpdates
  | requestUpdate (timeout : Int)
  | timerFire
  | locationUpdated (valid : Bool) (loc : LocationData) (now : Int)
  | complete (i : CompInfo)
deriving DecidableEq

/-- One transition of the machine.  A `LocationUpdated` signal is only
deliverable while a client object exists (the signal is connected on
creation and the connection dies with the object); completions are
delivered in FIFO order, matching the in-order delivery of D-Bus
replies on one connection. -/
def step (s : State) : Ev → State
  | Ev.startUpdates => startUpdates s
  | Ev.stopUpdates => stopUpdates s
  | Ev.requestUpdate t => requestUpdate t s
  | Ev.timerFire => timerFire s
  | Ev.locationUpdated v loc now =>
      if s.client.isNone then s else handleNewLocation v loc now s
  | Ev.complete i =>
      match s.pending with
      | [] => s
      | p :: rest =>
          let s2 := { s with pending := rest }
          match p with
          | Pend.create => onCreateFinished i s2
          | Pend.start => onStartFinished i s2
          | Pend.stop => onStopFinished i s2

/-- Run the machine over a list of events. -/
def run (s : State) (es : List Ev) : State := es.foldl step s

/-- Translation of `restoreLastPosition` (source lines 184-194): the
stored fix read from disk (or `none` when the file is absent or does not
parse) replaces `m_lastPosition`; stream I/O itself is an external
collaborator. -/
def restoreLastPosition (stored : Option Fix) (s : State) : State :=
  match stored with
  | none => s
  | some f => { s with lastPosition := f }

/-- The state after the constructor (source lines 48-66): all members
default-initialised, preferred methods set to all, then
`restoreLastPosition`. -/
def initState (stored : Option Fix) : State :=
  restoreLastPosition stored {}

/-- The value serialised by `saveLastPosition` (source line 207):
a fresh `QGeoPositionInfo` built from only the coordinate and timestamp
of `m_lastPosition`, so the attributes are left at their defaults. -/
def savedInfo (f : Fix) : Fix :=
  { coordinate := f.coordinate, timestamp := f.timestamp }

/-- Translation of `saveLastPosition` (source lines 196-211): nothing is
written unless `m_lastPosition.isValid()`; otherwise only the coordinate
and timestamp are serialised.  The byte encoding and the atomic file
replacement are external collaborators, so the model returns the
`QGeoPositionInfo` value written to the stream. -/
def saveLastPosition (s : State) : Option Fix :=
  if fixIsValid s.lastPosition then some (savedInfo s.lastPosition) else none

/-- Translation of `supportedPositioningMethods` (source lines 86-107):
the fallible `AvailableAccuracyLevel` property read is abstracted to an
`Option Nat`; an unreadable property sets `AccessError` and yields no
methods; otherwise the accuracy level is mapped by the switch. -/
def supportedPositioningMethods (avail : Option Nat) (s : State) : Nat × State :=
  match avail with
  | none => (noPositioningMethods, setError Err.accessError s)
  | some a =>
      if a = GCLUE_ACCURACY_LEVEL_COUNTRY ∨ a = GCLUE_ACCURACY_LEVEL_CITY ∨
         a = GCLUE_ACCURACY_LEVEL_NEIGHBORHOOD ∨ a = GCLUE_ACCURACY_LEVEL_STREET then
        (nonSatellitePositioningMethods, s)
      else if a = GCLUE_ACCURACY_LEVEL_EXACT then
        (allPositioningMethods, s)
      else
        (noPositioningMethods, s)

/-- Demand as consulted by `startClient` and `stopClient`: continuous
mode running, or the single-shot request timer active. -/
def demand (s : State) : Bool := s.running || s.requestTimer.isSome

/-- Whether a client handle exists and its remote session is started. -/
def clientStarted (s : State) : Bool :=
  match s.client with
  | some c => c.started
  | none => false

/-- A completion outcome in which every fallible step succeeds: the
D-Bus reply is not an error, the fresh client object is valid, and the
desktop id resolves. -/
def okComp (i : CompInfo) : Bool := i.ok && i.clientValid && i.desktopIdOk

/-- Admissible next event for the serialized, all-success regime:
completions always succeed, and external events (API calls, the timer
firing, location signals) are delivered only while no asynchronous call
is in flight. -/
def goodEv (s : State) : Ev → Bool
  | Ev.complete i => okComp i
  | _ => s.pending.isEmpty

/-- A trace is good when every event is admissible in the state in
which it is delivered. -/
def goodTrace : State → List Ev → Bool
  | _, [] => true
  | s, e :: es => goodEv s e && goodTrace (step s e) es

/-- Inductive invariant of the serialized, all-success machine: at most
one call is in flight; a settled state satisfies the demand/started
correspondence; an in-flight `GetClient` implies no client exists yet;
an in-flight `Start` implies a client exists and demand holds; an
in-flight `Stop` implies a client exists and demand has lapsed. -/
def Inv (s : State) : Prop :=
  (s.pending = [] → clientStarted s = demand s) ∧
  (s.pending = [Pend.create] → s.client = none ∧ demand s = true) ∧
  (s.pending = [Pend.start] → s.client.isSome = true ∧ demand s = true) ∧
  (s.pending = [Pend.stop] → s.client.isSome = true ∧ demand s = false) ∧
  (s.pending = [] ∨ s.pending = [Pend.create] ∨
    s.pending = [Pend.start] ∨ s.pending = [Pend.stop]) ∧
  s.crashed = false

theorem inv_init (f0 : Option Fix) : Inv (initState f0) := by
  refine ⟨?_, ?_, ?_, ?_, ?_, ?_⟩ <;>
    cases f0 <;>
      simp [initState, restoreLastPosition, demand, clientStarted]

theorem inv_step (s : State) (e : Ev) (hI : Inv s) (hg : goodEv s e = true) :
    Inv (step s e) := by
  obtain ⟨h0, hcr1, hst, hsp, hshape, hcr⟩ := hI
  cases e with
  | startUpdates =>
      have hp : s.pending = [] := by simpa [goodEv, List.isEmpty_iff] using hg
      have hsettled := h0 hp
      by_cases hr : s.running
      · simp only [step, startUpdates, hr, if_true]
        exact ⟨h0, hcr1, hst, hsp, hshape, hcr⟩
      · cases hcl : s.client with
        | none =>
            refine ⟨?_, ?_, ?_, ?_, ?_, ?_⟩ <;>
              simp [step, startUpdates, startClient, createClient, hr, hcl, hp,
                Inv, demand, clientStarted, hcr]
        | some c =>
            refine ⟨?_, ?_, ?_, ?_, ?_, ?_⟩ <;>
              simp [step, startUpdates, startClient, hr, hcl, hp,
                Inv, demand, clientStarted, hcr]
  | stopUpdates =>
      have hp : s.pending = [] := by simpa [goodEv, List.isEmpty_iff] using hg
      have hsettled := h0 hp
      by_cases hr : s.running
      · cases ht : s.requestTimer with
        | some v =>
            refine ⟨?_, ?_, ?_, ?_, ?_, ?_⟩ <;>
              simp [step, stopUpdates, stopClient, hr, ht, hp, hcr]
            · simpa [clientStarted, demand, hr, ht] using hsettled
        | none =>
            have hcs : clientStarted s = true := by
              simpa [demand, hr, ht] using hsettled
            cases hcl : s.client with
            | none => simp [clientStarted, hcl] at hcs
            | some c =>
                refine ⟨?_, ?_, ?_, ?_, ?_, ?_⟩ <;>
                  simp [step, stopUpdates, stopClient, hr, ht, hcl, hp,
                    demand, clientStarted, hcr]
      · simp only [step, stopUpdates, hr, Bool.not_false, if_true]
        exact ⟨h0, hcr1, hst, hsp, hshape, hcr⟩
  | requestUpdate t =>
      have hp : s.pending = [] := by simpa [goodEv, List.isEmpty_iff] using hg
      have hsettled := h0 hp
      cases ht : s.requestTimer with
      | some v =>
          simp only [step, requestUpdate, ht, Option.isSome_some, if_true]
          exact ⟨h0, hcr1, hst, hsp, hshape, hcr⟩
      | none =>
          by_cases hto : t < minimumUpdateInterval ∧ t ≠ 0
          · refine ⟨?_, ?_, ?_, ?_, ?_, ?_⟩ <;>
              simp [step, requestUpdate, ht, hto, setError, hp, hcr]
            · simpa [clientStarted, demand, ht] using hsettled
          · cases hcl : s.client with
            | none =>
                refine ⟨?_, ?_, ?_, ?_, ?_, ?_⟩ <;>
                  simp [step, requestUpdate, startClient, createClient, ht, hto,
                    hcl, hp, demand, clientStarted, hcr]
            | some c =>
                refine ⟨?_, ?_, ?_, ?_, ?_, ?_⟩ <;>
                  simp [step, requestUpdate, startClient, ht, hto, hcl, hp,
                    demand, clientStarted, hcr]
  | timerFire =>
      have hp : s.pending = [] := by simpa [goodEv, List.isEmpty_iff] using hg
      have hsettled := h0 hp
      cases ht : s.requestTimer with
      | none =>
          simp only [step, timerFire, ht]
          exact ⟨h0, hcr1, hst, hsp, hshape, hcr⟩
      | some v =>
          by_cases hr : s.running
          · refine ⟨?_, ?_, ?_, ?_, ?_, ?_⟩ <;>
              simp [step, timerFire, requestUpdateTimeout, stopClient, setError,
                ht, hr, hp, hcr]
            · simpa [clientStarted, demand, hr] using hsettled
          · have hcs : clientStarted s = true := by
              simpa [demand, hr, ht] using hsettled
            cases hcl : s.client with
            | none => simp [clientStarted, hcl] at hcs
            | some c =>
                refine ⟨?_, ?_, ?_, ?_, ?_, ?_⟩ <;>
                  simp [step, timerFire, requestUpdateTimeout, stopClient,
                    setError, ht, hr, hcl, hp, demand, clientStarted, hcr]
  | locationUpdated v loc now =>
      have hp : s.pending = [] := by simpa [goodEv, List.isEmpty_iff] using hg
      have hsettled := h0 hp
      cases hcl : s.client with
      | none =>
          simp only [step, hcl, Option.isNone_none, if_true]
          exact ⟨h0, hcr1, hst, hsp, hshape, hcr⟩
      | some c =>
          by_cases hr : s.running
          · cases v <;>
              refine ⟨?_, ?_, ?_, ?_, ?_, ?_⟩ <;>
                simp [step, handleNewLocation, stopClient, hcl, hr, hp, hcr] <;>
                simpa [clientStarted, demand, hr, hcl] using hsettled
          · cases v <;>
              refine ⟨?_, ?_, ?_, ?_, ?_, ?_⟩ <;>
                simp [step, handleNewLocation, stopClient, hcl, hr, hp,
                  demand, clientStarted, hcr]
  | complete i =>
      have hok : (i.ok = true ∧ i.clientValid = true) ∧ i.desktopIdOk = true := by
        simpa [goodEv, okComp, Bool.and_eq_true] using hg
      obtain ⟨⟨hok1, hok2⟩, hok3⟩ := hok
      cases hp : s.pending with
      | nil =>
          simp only [step, hp]
          exact ⟨h0, hcr1, hst, hsp, hshape, hcr⟩
      | cons p rest =>
          rw [hp] at hshape hcr1 hst hsp
          rcases hshape with h | h | h | h
          · exact absurd h (List.cons_ne_nil p rest)
          · -- GetClient completion
            simp only [List.cons.injEq] at h
            obtain ⟨rfl, rfl⟩ := h
            obtain ⟨hcl, hd⟩ := hcr1 rfl
            by_cases hr : s.running
            · refine ⟨?_, ?_, ?_, ?_, ?_, ?_⟩ <;>
                simp [step, hp, onCreateFinished, configureClient, startClient,
                  hok1, hok2, hok3, hr, demand, clientStarted, hcr]
            · cases ht : s.requestTimer with
              | none => simp [demand, hr, ht] at hd
              | some v =>
                  refine ⟨?_, ?_, ?_, ?_, ?_, ?_⟩ <;>
                    simp [step, hp, onCreateFinished, configureClient,
                      startClient, hok1, hok2, hok3, hr, ht, demand,
                      clientStarted, hcr]
          · -- Start completion
            simp only [List.cons.injEq] at h
            obtain ⟨rfl, rfl⟩ := h
            obtain ⟨hcl, hd⟩ := hst rfl
            rw [Option.isSome_iff_exists] at hcl
            obtain ⟨c, hc⟩ := hcl
            by_cases hloc : i.hasLocation
            · by_cases hr : s.running
              · by_cases hlv : i.locValid <;>
                  refine ⟨?_, ?_, ?_, ?_, ?_, ?_⟩ <;>
                    simp [step, hp, onStartFinished, handleNewLocation,
                      stopClient, hok1, hc, hloc, hlv, hr, demand,
                      clientStarted, hcr]
              · by_cases hlv : i.locValid <;>
                  refine ⟨?_, ?_, ?_, ?_, ?_, ?_⟩ <;>
                    simp [step, hp, onStartFinished, handleNewLocation,
                      stopClient, hok1, hc, hloc, hlv, hr, demand,
                      clientStarted, hcr]
            · refine ⟨?_, ?_, ?_, ?_, ?_, ?_⟩ <;>
                (simp [step, hp, onStartFinished, hok1, hc, hloc, demand,
                  clientStarted, hcr]
                 try simpa [demand] using hd)
          · -- Stop completion
            simp only [List.cons.injEq] at h
            obtain ⟨rfl, rfl⟩ := h
            obtain ⟨hcl, hd⟩ := hsp rfl
            refine ⟨?_, ?_, ?_, ?_, ?_, ?_⟩ <;>
              (simp [step, hp, onStopFinished, hok1, demand, clientStarted, hcr]
               try simpa [demand] using hd)

theorem inv_run (es : List Ev) :
    ∀ s : State, Inv s → goodTrace s es = true → Inv (run s es) := by
  induction es with
  | nil => intro s h _; simpa [run] using h
  | cons e es ih =>
      intro s h hg
      have h1 : goodEv s e = true ∧ goodTrace (step s e) es = true := by
        simpa [goodTrace, Bool.and_eq_true] using hg
      simpa [run] using ih (step s e) (inv_step s e h h1.1) h1.2

/-- Claim C1 (counterexample).  The claim quantifies over all sequences
of API calls and asynchronous completions, but a failed `GetClient`
completion is such a completion: after `startUpdates` followed by an
errored create reply, every transition has settled (nothing is in
flight), continuous demand `m_running` is still true, yet no session
handle exists at all — so "the session exists and is started iff
`m_running` or the deadline timer is active" is false in this settled
state. -/
theorem c1_counterexample :
    (run (initState none) [Ev.startUpdates, Ev.complete { ok := false }]).pending = [] ∧
    (run (initState none) [Ev.startUpdates, Ev.complete { ok := false }]).running = true ∧
    (run (initState none) [Ev.startUpdates, Ev.complete { ok := false }]).client = none ∧
    clientStarted (run (initState none) [Ev.startUpdates, Ev.complete { ok := false }]) = false ∧
    demand (run (initState none) [Ev.startUpdates, Ev.complete { ok := false }]) = true := by
  decide

/-- Claim C1 (amended).  For every sequence of `startUpdates`,
`stopUpdates`, `requestUpdate`, timer-expiry and location events and
asynchronous completions in which every completion succeeds (no D-Bus
error, valid client object, resolvable desktop id) and external events
are only delivered while no call is in flight, every settled state
(no in-flight calls) satisfies: the remote session handle exists and is
started if and only if continuous demand (`m_running`) is true or the
deadline timer is active. -/
theorem c1_session_started_iff_demand (f0 : Option Fix) (es : List Ev)
    (hg : goodTrace (initState f0) es = true)
    (hs : (run (initState f0) es).pending = []) :
    clientStarted (run (initState f0) es) = demand (run (initState f0) es) :=
  (inv_run es (initState f0) (inv_init f0) hg).1 hs

/-- Claim C1 (witness): the amended invariant evaluated on the concrete
good trace startUpdates, create-success, start-success. -/
theorem c1_session_started_iff_demand_witness :
    goodTrace (initState none) [Ev.startUpdates, Ev.complete {}, Ev.complete {}] = true ∧
    (run (initState none) [Ev.startUpdates, Ev.complete {}, Ev.complete {}]).pending = [] ∧
    clientStarted (run (initState none) [Ev.startUpdates, Ev.complete {}, Ev.complete {}]) =
      demand (run (initState none) [Ev.startUpdates, Ev.complete {}, Ev.complete {}]) :=
  ⟨by decide, by decide,
    c1_session_started_iff_demand none
      [Ev.startUpdates, Ev.complete {}, Ev.complete {}] (by decide) (by decide)⟩

/-- Claim C2 (counterexample).  Demand drops to none while the
session-creation call is in flight (`startUpdates`, then `stopUpdates`,
then the create success arrives).  The completion is processed, but the
resulting session is NOT stopped and discarded: `startClient` returns
early on zero demand without issuing any call, leaving the configured,
unstarted client object alive with nothing in flight. -/
theorem c2_counterexample :
    (run (initState none) [Ev.startUpdates, Ev.stopUpdates, Ev.complete {}]).pending = [] ∧
    (run (initState none) [Ev.startUpdates, Ev.stopUpdates, Ev.complete {}]).client =
      some { desktopIdSet := true, timeThresholdSent := some 0,
             requestedAccuracy := some GCLUE_ACCURACY_LEVEL_EXACT } ∧
    clientStarted (run (initState none) [Ev.startUpdates, Ev.stopUpdates, Ev.complete {}]) =
      false := by
  decide

/-- Claim C2 (amended).  In-flight calls are indeed not cancelled and
their completions are still processed, but the two cases differ: a late
session-CREATE success configures the client and then issues no call at
all, leaving the unstarted client handle alive; a late session-START
success does lead to the session being stopped and discarded (the Stop
issued when demand dropped, plus a second Stop when the start handler
sees an immediate location, delete the client once all completions
settle), for every choice of the start reply's location payload. -/
theorem c2_late_completion (hl lv : Bool) (loc : LocationData) (now : Int) :
    ((run (initState none) [Ev.startUpdates, Ev.stopUpdates, Ev.complete {}]).pending = [] ∧
     (run (initState none) [Ev.startUpdates, Ev.stopUpdates, Ev.complete {}]).client =
       some { desktopIdSet := true, timeThresholdSent := some 0,
              requestedAccuracy := some GCLUE_ACCURACY_LEVEL_EXACT } ∧
     clientStarted (run (initState none) [Ev.startUpdates, Ev.stopUpdates, Ev.complete {}]) =
       false) ∧
    ((run (initState none)
        [Ev.startUpdates, Ev.complete {}, Ev.stopUpdates,
         Ev.complete { hasLocation := hl, locValid := lv, loc := loc, now := now },
         Ev.complete {}, Ev.complete {}]).client = none ∧
     (run (initState none)
        [Ev.startUpdates, Ev.complete {}, Ev.stopUpdates,
         Ev.complete { hasLocation := hl, locValid := lv, loc := loc, now := now },
         Ev.complete {}, Ev.complete {}]).pending = []) := by
  refine ⟨⟨by decide, by decide, by decide⟩, ?_⟩
  cases hl <;> cases lv <;> exact ⟨rfl, rfl⟩

/-- Claim C3 (counterexample).  On a configuration failure (desktop id
unresolvable) the state machine does NOT end with no session handle:
the create-completion handler keeps the freshly created client object
when `configureClient` returns false, so an unconfigured, unstarted
client handle survives alongside the AccessError. -/
theorem c3_counterexample :
    (run (initState none) [Ev.startUpdates, Ev.complete { desktopIdOk := false }]).client =
      some {} ∧
    (run (initState none) [Ev.startUpdates, Ev.complete { desktopIdOk := false }]).error =
      some Err.accessError ∧
    (run (initState none) [Ev.startUpdates, Ev.complete { desktopIdOk := false }]).pending =
      [] := by
  decide

/-- Claim C3 (amended).  Session-creation failure, an invalid fresh
client object, start failure and stop failure all set AccessError and
end with no session handle, so the next demand change re-attempts
creation from scratch; but a configuration failure (missing desktop id)
sets AccessError while KEEPING the unstarted client handle, and the
next demand change then issues a Start on that stale handle instead of
re-creating the session. -/
theorem c3_errors_and_session_handle :
    ((run (initState none) [Ev.startUpdates, Ev.complete { ok := false }]).client = none ∧
     (run (initState none) [Ev.startUpdates, Ev.complete { ok := false }]).error =
       some Err.accessError) ∧
    ((run (initState none) [Ev.startUpdates, Ev.complete { clientValid := false }]).client =
       none ∧
     (run (initState none) [Ev.startUpdates, Ev.complete { clientValid := false }]).error =
       some Err.accessError) ∧
    ((run (initState none)
        [Ev.startUpdates, Ev.complete {}, Ev.complete { ok := false }]).client = none ∧
     (run (initState none)
        [Ev.startUpdates, Ev.complete {}, Ev.complete { ok := false }]).error =
       some Err.accessError) ∧
    ((run (initState none)
        [Ev.startUpdates, Ev.complete {}, Ev.complete {}, Ev.stopUpdates,
         Ev.complete { ok := false }]).client = none ∧
     (run (initState none)
        [Ev.startUpdates, Ev.complete {}, Ev.complete {}, Ev.stopUpdates,
         Ev.complete { ok := false }]).error = some Err.accessError) ∧
    ((run (initState none) [Ev.startUpdates, Ev.complete { desktopIdOk := false }]).client =
       some {} ∧
     (run (initState none) [Ev.startUpdates, Ev.complete { desktopIdOk := false }]).error =
       some Err.accessError ∧
     (run (initState none)
        [Ev.startUpdates, Ev.complete { desktopIdOk := false },
         Ev.requestUpdate 0]).pending = [Pend.start]) := by
  decide

/-- Claim C4.  While the request timer is not already active, every
nonzero timeout strictly below the 1000 ms minimum update interval
makes `requestUpdate` raise `UnknownSourceError` immediately: the
deadline timer stays stopped, the client handle is untouched and no
asynchronous call is issued. -/
theorem c4_small_timeout_rejected (s : State) (t : Int)
    (h1 : s.requestTimer = none) (h2 : t ≠ 0) (h3 : t < minimumUpdateInterval) :
    (requestUpdate t s).error = some Err.unknownSourceError ∧
    (requestUpdate t s).requestTimer = none ∧
    (requestUpdate t s).client = s.client ∧
    (requestUpdate t s).pending = s.pending := by
  simp [requestUpdate, h1, h2, h3, setError]

/-- Claim C4 (witness): `requestUpdate 500` on the freshly constructed
source. -/
theorem c4_small_timeout_rejected_witness :
    (requestUpdate 500 (initState none)).error = some Err.unknownSourceError ∧
    (requestUpdate 500 (initState none)).requestTimer = none ∧
    (requestUpdate 500 (initState none)).client = none ∧
    (requestUpdate 500 (initState none)).pending = [] := by
  have h := c4_small_timeout_rejected (initState none) 500 (by decide) (by decide) (by decide)
  refine ⟨h.1, h.2.1, ?_, ?_⟩
  · simpa using h.2.2.1
  · simpa using h.2.2.2

/-- Claim C5.  `requestUpdate 0` starts the deadline timer with the
cold-start default of 120000 ms and drives session startup (a create
call when no client exists, a start call otherwise); when the timer
fires with continuous demand inactive and a client present,
`UnknownSourceError` is raised and a Stop call is issued, whose
completion discards the session handle. -/
theorem c5_cold_start_and_timeout :
    (∀ s : State, s.requestTimer = none →
      (requestUpdate 0 s).requestTimer = some UPDATE_TIMEOUT_COLD_START ∧
      (requestUpdate 0 s).pending =
        s.pending ++ (if s.client.isNone then [Pend.create] else [Pend.start])) ∧
    (∀ s : State, s.requestTimer.isSome = true → s.running = false →
      s.client.isSome = true →
      (timerFire s).error = some Err.unknownSourceError ∧
      (timerFire s).requestTimer = none ∧
      (timerFire s).pending = s.pending ++ [Pend.stop]) ∧
    (∀ (i : CompInfo) (s : State), (onStopFinished i s).client = none) := by
  refine ⟨?_, ?_, ?_⟩
  · intro s h
    cases hcl : s.client <;>
      simp [requestUpdate, h, hcl, startClient, createClient, minimumUpdateInterval]
  · intro s h1 h2 h3
    rw [Option.isSome_iff_exists] at h1 h3
    obtain ⟨v, hv⟩ := h1
    obtain ⟨c, hc⟩ := h3
    simp [timerFire, hv, requestUpdateTimeout, stopClient, setError, h2, hc]
  · intro i s
    by_cases h : i.ok <;> simp [onStopFinished, setError, h]

/-- Claim C5 (witness): the three parts evaluated at concrete states —
a fresh source for the cold start, and an idle-but-started session for
the timer expiry and the stop completion. -/
theorem c5_cold_start_and_timeout_witness :
    (requestUpdate 0 (initState none)).requestTimer = some 120000 ∧
    (requestUpdate 0 (initState none)).pending = [Pend.create] ∧
    (timerFire { requestTimer := some 120000, client := some { started := true } }).error =
      some Err.unknownSourceError ∧
    (timerFire { requestTimer := some 120000, client := some { started := true } }).pending =
      [Pend.stop] ∧
    (onStopFinished {} { client := some { started := true } }).client = none := by
  have h := c5_cold_start_and_timeout
  have h1 := h.1 (initState none) (by decide)
  have h2 := h.2.1 { requestTimer := some 120000, client := some { started := true } }
    (by decide) (by decide) (by decide)
  have h3 := h.2.2 {} { client := some { started := true } }
  refine ⟨by simpa [UPDATE_TIMEOUT_COLD_START] using h1.1, by simpa using h1.2,
    h2.1, by simpa using h2.2.2, h3⟩

theorem toInt64_of_lt {n : Nat} (h : n < 2 ^ 63) : toInt64 n = (n : Int) := by
  have hm : n % 2 ^ 64 = n := Nat.mod_eq_of_lt (by omega)
  rw [toInt64, hm, if_pos h]

theorem toInt64_of_ge {n : Nat} (h1 : 2 ^ 63 ≤ n) (h2 : n < 2 ^ 64) :
    toInt64 n = (n : Int) - 2 ^ 64 := by
  have hm : n % 2 ^ 64 = n := Nat.mod_eq_of_lt h2
  rw [toInt64, hm, if_neg (by omega)]

theorem resolve_timestamp (loc : LocationData) (now : Int) :
    (resolveLocation loc now).timestamp =
      some (if loc.tsSeconds = 0 ∧ loc.tsMicroseconds = 0 then now
        else toInt64 loc.tsSeconds * 1000 + (loc.tsMicroseconds / 1000 : Nat)) := rfl

/-- The location record with reported timestamp (2^63, 0) seconds. -/
def loc63 : LocationData := { defaultLoc with tsSeconds := 2 ^ 63 }

/-- The location record with the reported timestamp of the
specification example, (1700000000 s, 500000 us). -/
def locEx : LocationData :=
  { defaultLoc with tsSeconds := 1700000000, tsMicroseconds := 500000 }

/-- The location record reporting an altitude of negative infinity. -/
def locNinf : LocationData := { defaultLoc with altitude := D.ninf }

/-- The location record reporting a finite altitude of 5. -/
def locAlt5 : LocationData := { defaultLoc with altitude := D.finite 5 }

/-- Claim C6 (counterexample).  The claim says the resolved timestamp
equals the reported seconds since the epoch (plus microseconds/1000 ms)
for every nonzero reported pair, but the source narrows the unsigned
64-bit seconds through `qint64(...)`: a reported value of `2^63`
seconds resolves to `-2^63 * 1000` milliseconds, not `2^63 * 1000`. -/
theorem c6_counterexample :
    (resolveLocation loc63 0).timestamp = some (-(2 ^ 63) * 1000) ∧
    (resolveLocation loc63 0).timestamp ≠ some ((2 ^ 63 : Int) * 1000 + 0) := by
  decide

/-- Claim C6 (amended).  A reported (0,0) pair stamps the fix with the
current wall-clock time; a nonzero pair with seconds below `2^63`
stamps it with seconds-since-epoch plus microseconds/1000 milliseconds;
seconds in `[2^63, 2^64)` wrap through the signed 64-bit conversion and
stamp it with `(seconds - 2^64) * 1000` plus microseconds/1000. -/
theorem c6_timestamp_resolution (loc : LocationData) (now : Int) :
    (loc.tsSeconds = 0 ∧ loc.tsMicroseconds = 0 →
      (resolveLocation loc now).timestamp = some now) ∧
    (¬(loc.tsSeconds = 0 ∧ loc.tsMicroseconds = 0) → loc.tsSeconds < 2 ^ 63 →
      (resolveLocation loc now).timestamp =
        some ((loc.tsSeconds : Int) * 1000 + (loc.tsMicroseconds / 1000 : Nat))) ∧
    (2 ^ 63 ≤ loc.tsSeconds → loc.tsSeconds < 2 ^ 64 →
      (resolveLocation loc now).timestamp =
        some (((loc.tsSeconds : Int) - 2 ^ 64) * 1000 + (loc.tsMicroseconds / 1000 : Nat))) := by
  refine ⟨?_, ?_, ?_⟩
  · intro h
    rw [resolve_timestamp, if_pos h]
  · intro h hlt
    rw [resolve_timestamp, if_neg h, toInt64_of_lt hlt]
  · intro h1 h2
    have h : ¬(loc.tsSeconds = 0 ∧ loc.tsMicroseconds = 0) := by
      rintro ⟨ha, -⟩
      omega
    rw [resolve_timestamp, if_neg h, toInt64_of_ge h1 h2]

/-- Claim C6 (witness): the nonzero example from the specification,
(1700000000, 500000), and the zero pair. -/
theorem c6_timestamp_resolution_witness :
    (resolveLocation locEx 7).timestamp = some 1700000000500 ∧
    (resolveLocation defaultLoc 7).timestamp = some 7 := by
  have h1 := (c6_timestamp_resolution locEx 7).2.1 (by decide) (by decide)
  have h2 := (c6_timestamp_resolution defaultLoc 7).1 (by decide)
  exact ⟨by simpa [locEx] using h1, h2⟩

/-- Claim C7 (counterexample).  The claim (and the specification) say
every altitude value other than the sentinel is set verbatim, but the
code tests `altitude > std::numeric_limits<double>::lowest()`: a
reported altitude of negative infinity differs from the sentinel yet is
left unset on the fix coordinate. -/
theorem c7_counterexample :
    locNinf.altitude ≠ dblLowest ∧
    (resolveLocation locNinf 0).coordinate.altitude = none := by
  exact ⟨by decide, rfl⟩

/-- Claim C7 (amended).  Altitude is set on the fix coordinate exactly
when the reported double is strictly above the sentinel in the IEEE
order (so every finite value above the lowest finite double is set
verbatim, while the sentinel itself, negative infinity and NaN are left
unset); ground speed and heading are set exactly when the reported
values compare greater-or-equal to zero (so NaN is also left unset). -/
theorem c7_attribute_gating (loc : LocationData) (now : Int) :
    (dgt loc.altitude dblLowest = true →
      (resolveLocation loc now).coordinate.altitude = some loc.altitude) ∧
    (dgt loc.altitude dblLowest = false →
      (resolveLocation loc now).coordinate.altitude = none) ∧
    (dge loc.speed dzero = true →
      (resolveLocation loc now).groundSpeed = some loc.speed) ∧
    (dge loc.speed dzero = false → (resolveLocation loc now).groundSpeed = none) ∧
    (dge loc.heading dzero = true →
      (resolveLocation loc now).direction = some loc.heading) ∧
    (dge loc.heading dzero = false → (resolveLocation loc now).direction = none) ∧
    (∀ q : ℚ, lowestQ < q → dgt (D.finite q) dblLowest = true) ∧
    dgt D.ninf dblLowest = false ∧ dgt D.nan dblLowest = false := by
  refine ⟨?_, ?_, ?_, ?_, ?_, ?_, ?_, rfl, rfl⟩
  · intro h; simp [resolveLocation, h]
  · intro h; simp [resolveLocation, h]
  · intro h; simp [resolveLocation, h]
  · intro h; simp [resolveLocation, h]
  · intro h; simp [resolveLocation, h]
  · intro h; simp [resolveLocation, h]
  · intro q hq
    simp [dgt, dlt, dblLowest, hq]

/-- Claim C7 (witness): a finite altitude above the sentinel is set
verbatim, and a NaN heading is left unset. -/
theorem c7_attribute_gating_witness :
    (resolveLocation locAlt5 0).coordinate.altitude = some (D.finite 5) ∧
    (resolveLocation locAlt5 0).direction = none := by
  have h := c7_attribute_gating locAlt5 0
  have hq : dgt (D.finite 5) dblLowest = true :=
    h.2.2.2.2.2.2.1 5 (by rw [lowestQ]; norm_num)
  exact ⟨h.1 hq, h.2.2.2.2.2.1 rfl⟩

/-- Claim C8.  The capability query maps the provider's available
accuracy level: country, city, neighborhood and street yield
non-satellite capability; exact yields full capability; none and every
unrecognized level yield no capability; an unreadable property yields
no capability and raises AccessError — and a readable property never
changes the state, so the unreadable case is the only one raising an
error. -/
theorem c8_capability_mapping :
    (∀ s : State,
      (supportedPositioningMethods none s).1 = noPositioningMethods ∧
      (supportedPositioningMethods none s).2.error = some Err.accessError) ∧
    (∀ (a : Nat) (s : State), (supportedPositioningMethods (some a) s).2 = s) ∧
    (∀ s : State,
      (supportedPositioningMethods (some GCLUE_ACCURACY_LEVEL_COUNTRY) s).1 =
        nonSatellitePositioningMethods ∧
      (supportedPositioningMethods (some GCLUE_ACCURACY_LEVEL_CITY) s).1 =
        nonSatellitePositioningMethods ∧
      (supportedPositioningMethods (some GCLUE_ACCURACY_LEVEL_NEIGHBORHOOD) s).1 =
        nonSatellitePositioningMethods ∧
      (supportedPositioningMethods (some GCLUE_ACCURACY_LEVEL_STREET) s).1 =
        nonSatellitePositioningMethods ∧
      (supportedPositioningMethods (some GCLUE_ACCURACY_LEVEL_EXACT) s).1 =
        allPositioningMethods ∧
      (supportedPositioningMethods (some GCLUE_ACCURACY_LEVEL_NONE) s).1 =
        noPositioningMethods) ∧
    (∀ (a : Nat) (s : State),
      a ≠ GCLUE_ACCURACY_LEVEL_COUNTRY → a ≠ GCLUE_ACCURACY_LEVEL_CITY →
      a ≠ GCLUE_ACCURACY_LEVEL_NEIGHBORHOOD → a ≠ GCLUE_ACCURACY_LEVEL_STREET →
      a ≠ GCLUE_ACCURACY_LEVEL_EXACT →
      (supportedPositioningMethods (some a) s).1 = noPositioningMethods) := by
  refine ⟨?_, ?_, ?_, ?_⟩
  · intro s
    exact ⟨rfl, rfl⟩
  · intro a s
    rcases h1 : decide (a = GCLUE_ACCURACY_LEVEL_COUNTRY ∨ a = GCLUE_ACCURACY_LEVEL_CITY ∨
      a = GCLUE_ACCURACY_LEVEL_NEIGHBORHOOD ∨ a = GCLUE_ACCURACY_LEVEL_STREET) with h | h
    all_goals
      simp only [supportedPositioningMethods]
      split <;> try rfl
    all_goals split <;> rfl
  · intro s
    refine ⟨rfl, rfl, rfl, rfl, rfl, rfl⟩
  · intro a s h1 h2 h3 h4 h5
    simp [supportedPositioningMethods, GCLUE_ACCURACY_LEVEL_COUNTRY,
      GCLUE_ACCURACY_LEVEL_CITY, GCLUE_ACCURACY_LEVEL_NEIGHBORHOOD,
      GCLUE_ACCURACY_LEVEL_STREET, GCLUE_ACCURACY_LEVEL_EXACT] at h1 h2 h3 h4 h5 ⊢
    simp [h1, h2, h3, h4, h5]

/-- Claim C8 (witness): an unrecognized accuracy level (3) yields no
capability, evaluated on the freshly constructed source. -/
theorem c8_capability_mapping_witness :
    (supportedPositioningMethods (some 3) (initState none)).1 = noPositioningMethods ∧
    (supportedPositioningMethods (some GCLUE_ACCURACY_LEVEL_STREET) (initState none)).1 =
      nonSatellitePositioningMethods := by
  have h := c8_capability_mapping
  exact ⟨h.2.2.2 3 (initState none) (by decide) (by decide) (by decide) (by decide)
    (by decide), (h.2.2.1 (initState none)).2.2.2.1⟩

/-- The concrete valid coordinate used to witness the persistence round
trip. -/
def coordW : Coordinate :=
  { latitude := D.finite 10, longitude := D.finite 20, altitude := some (D.finite 30) }

/-- The concrete valid fix used to witness the persistence round trip
(see `coordW`). -/
def fixW : Fix :=
  { coordinate := coordW, timestamp := some 99, horizontalAccuracy := some (D.finite 1),
    groundSpeed := some (D.finite 2), direction := some (D.finite 3) }

/-- Claim C9.  For every valid stored fix, the save path serialises
only a fresh info built from the coordinate and timestamp, and
restoring that value yields the original coordinate and timestamp
exactly while the horizontal-accuracy, ground-speed and direction
attributes come back unset. -/
theorem c9_save_restore_roundtrip (f : Fix) (s0 : State) (h : fixIsValid f = true) :
    saveLastPosition { s0 with lastPosition := f } = some (savedInfo f) ∧
    (restoreLastPosition (saveLastPosition { s0 with lastPosition := f })
        s0).lastPosition.coordinate = f.coordinate ∧
    (restoreLastPosition (saveLastPosition { s0 with lastPosition := f })
        s0).lastPosition.timestamp = f.timestamp ∧
    (restoreLastPosition (saveLastPosition { s0 with lastPosition := f })
        s0).lastPosition.horizontalAccuracy = none ∧
    (restoreLastPosition (saveLastPosition { s0 with lastPosition := f })
        s0).lastPosition.groundSpeed = none ∧
    (restoreLastPosition (saveLastPosition { s0 with lastPosition := f })
        s0).lastPosition.direction = none := by
  simp [saveLastPosition, h, restoreLastPosition, savedInfo]

/-- Claim C9 (witness): the round trip evaluated on a concrete valid
fix carrying accuracy, speed and heading attributes. -/
theorem c9_save_restore_roundtrip_witness :
    fixIsValid fixW = true ∧
    saveLastPosition { ({} : State) with lastPosition := fixW } = some (savedInfo fixW) ∧
    (restoreLastPosition (saveLastPosition { ({} : State) with lastPosition := fixW })
        ({} : State)).lastPosition.coordinate = fixW.coordinate ∧
    (restoreLastPosition (saveLastPosition { ({} : State) with lastPosition := fixW })
        ({} : State)).lastPosition.timestamp = fixW.timestamp ∧
    (restoreLastPosition (saveLastPosition { ({} : State) with lastPosition := fixW })
        ({} : State)).lastPosition.groundSpeed = none := by
  have h := c9_save_restore_roundtrip fixW {} (by decide)
  exact ⟨by decide, h.1, h.2.1, h.2.2.1, h.2.2.2.2.1⟩

/-- Claim C10.  The time threshold pushed by `configureClient` is
`qMax(uint(msecs), 0u) / 1000u` applied to the signed update interval:
the int-to-uint conversion happens first, so every negative interval
wraps modulo 2^32 instead of clamping to zero, and the live client
record ends up carrying exactly that wrapped threshold. -/
theorem c10_threshold_wrap :
    (∀ m : Int, -(2 ^ 31) ≤ m → m < 0 →
      timeThreshold m = (m + 2 ^ 32).toNat / 1000) ∧
    (∀ (s : State) (c : Client), s.client = some c →
      (configureClient true s).1 = true ∧
      (configureClient true s).2.client =
        some { c with desktopIdSet := true,
                      timeThresholdSent := some (timeThreshold s.updateInterval),
                      requestedAccuracy :=
                        some (requestedAccuracyFor s.preferredMethods) }) := by
  constructor
  · intro m h1 h2
    have hm : m % 2 ^ 32 = m + 2 ^ 32 := by omega
    rw [timeThreshold, hm, Nat.max_zero]
  · intro s c h
    simp [configureClient, h]

/-- Claim C10 (witness): an interval of -1 ms wraps to a threshold of
4294967 seconds rather than clamping to zero. -/
theorem c10_threshold_wrap_witness :
    timeThreshold (-1) = 4294967 ∧ timeThreshold (-1) ≠ 0 := by
  have h := c10_threshold_wrap.1 (-1) (by decide) (by decide)
  rw [h]
  exact ⟨by decide, by decide⟩

end Geoclue2
